import Mathlib

/-!
Verification development for the lateral planning core of this repository.

The definitions below are a shallow embedding of:
  * the lane-change state machine, per-tick forecast acceptance and the
    MPC failure-detection block of
    selfdrive/controls/lib/lateral_planner.py (LateralPlanner.update and
    LateralPlanner.publish), and
  * the turn-signal decoding of selfdrive/car/gm/carstate.py
    (CarState.update).

Real-valued quantities of the source (timers, probabilities, speeds,
torques, costs, times) are embedded as rationals.  A Python attribute
that is read before any assignment raises AttributeError; the one field
of LateralPlanner with that hazard (pre_lane_change_timer, which is not
assigned in __init__) is embedded as an Option, and the per-tick step
returns Except so that the attribute fault is observable.  A NaN sample
in the solver's curvature output is embedded as Option.none inside the
solution list.
-/

/-- Modelled from the spec: the control tick period DT_MDL comes from
common/realtime.py, which is not under src/.  Section 4.3 of the spec fixes
it: the blend factor falls from 1 to 0 in steps of 2 times the tick period
over about 0.5 s and rises in steps of one tick period over about 1 s,
giving a tick period of 0.05 s. -/
def DT_MDL : ℚ := 1/20

/-- Modelled from the spec: the expected forecast horizon length
TRAJECTORY_SIZE comes from selfdrive/controls/lib/lane_planner.py, which is
not under src/.  The spec only says the forecast is an ordered sequence of
fixed length N; the value 33 is the conventional one and no claim depends
on it. -/
def TRAJECTORY_SIZE : ℕ := 33

/-- Lane-change states, log.LateralPlan.LaneChangeState. -/
inductive LaneChangeState
  | off
  | preLaneChange
  | laneChangeStarting
  | laneChangeFinishing
deriving DecidableEq

/-- Lane-change directions, log.LateralPlan.LaneChangeDirection. -/
inductive LaneChangeDirection
  | none
  | left
  | right
deriving DecidableEq

/-- Per-tick inputs consumed by the lane-change logic of
LateralPlanner.update (lines 163-233): carState fields, controlsState.active,
and the lane re-detection probability sum
LP.l_lane_change_prob + LP.r_lane_change_prob (line 194). -/
structure TickInput where
  vEgo : ℚ
  active : Bool
  leftBlinker : Bool
  rightBlinker : Bool
  leftBlindspot : Bool
  rightBlindspot : Bool
  steeringTorque : ℚ
  steeringPressed : Bool
  lane_change_prob : ℚ
deriving DecidableEq

/-- Configuration read in LateralPlanner.__init__ from kegman_kans_conf
(lines 86-88): ALCnudgeLess, ALCminSpeed, ALCtimer. -/
structure AlcConfig where
  alc_nudge_less : Bool
  alc_min_speed : ℚ
  alc_timer : ℚ
deriving DecidableEq

/-- The mutable lane-change fields of LateralPlanner.
pre_lane_change_timer is the only one not assigned in __init__ (it is first
assigned inside update, lines 170/174/177/179), hence the Option. -/
structure LCState where
  lane_change_state : LaneChangeState
  lane_change_direction : LaneChangeDirection
  lane_change_timer : ℚ
  pre_lane_change_timer : Option ℚ
  lane_change_ll_prob : ℚ
  prev_one_blinker : Bool
deriving DecidableEq

/-- LateralPlanner.__init__ lines 66-70: state off, direction none,
timer 0, blend factor 1, prev_one_blinker False; pre_lane_change_timer is
never assigned there. -/
def initLCState : LCState :=
  { lane_change_state := LaneChangeState.off
    lane_change_direction := LaneChangeDirection.none
    lane_change_timer := 0
    pre_lane_change_timer := Option.none
    lane_change_ll_prob := 1
    prev_one_blinker := false }

/-- Lines 172-179: while active, a held blinker sets the direction and
accumulates pre_lane_change_timer by DT_MDL; no blinker resets it to 0.
The += on a never-assigned attribute is Python AttributeError, hence the
error case. -/
def blinkerDirTimer (inp : TickInput) (s : LCState) : Except Unit LCState :=
  if inp.leftBlinker then
    match s.pre_lane_change_timer with
    | Option.none => Except.error ()
    | Option.some t =>
      Except.ok { s with lane_change_direction := LaneChangeDirection.left
                         pre_lane_change_timer := Option.some (t + DT_MDL) }
  else if inp.rightBlinker then
    match s.pre_lane_change_timer with
    | Option.none => Except.error ()
    | Option.some t =>
      Except.ok { s with lane_change_direction := LaneChangeDirection.right
                         pre_lane_change_timer := Option.some (t + DT_MDL) }
  else
    Except.ok { s with pre_lane_change_timer := Option.some 0 }

/-- Lines 181-188.  Line 164 of update initializes a LOCAL variable
lane_change_direction to none, and that local is never reassigned before
the read on line 185, so the positive-torque branch is dead code: the
check used is always the negative-torque one. -/
def torqueApplied (cfg : AlcConfig) (inp : TickInput) (preT : ℚ) : Bool :=
  let lane_change_direction := LaneChangeDirection.none
  if cfg.alc_nudge_less && decide (preT > cfg.alc_timer) then
    true
  else if lane_change_direction = LaneChangeDirection.left then
    decide (inp.steeringTorque > 0) && inp.steeringPressed
  else
    decide (inp.steeringTorque < 0) && inp.steeringPressed

/-- Lines 191-192: blind spot on the side of the commanded direction
(this one reads self.lane_change_direction). -/
def blindspotDetected (inp : TickInput) (s : LCState) : Bool :=
  (inp.leftBlindspot && decide (s.lane_change_direction = LaneChangeDirection.left)) ||
  (inp.rightBlindspot && decide (s.lane_change_direction = LaneChangeDirection.right))

/-- Lines 196-224: the state transitions, including the blend-factor
fades done inside the laneChangeStarting and laneChangeFinishing branches. -/
def stateTransitions (lane_change_prob : ℚ)
    (one_blinker below_lane_change_speed torque_applied blindspot_detected : Bool)
    (s : LCState) : LCState :=
  if s.lane_change_state = LaneChangeState.off ∧ one_blinker = true ∧
      s.prev_one_blinker = false ∧ below_lane_change_speed = false then
    { s with lane_change_state := LaneChangeState.preLaneChange
             lane_change_ll_prob := 1 }
  else if s.lane_change_state = LaneChangeState.preLaneChange then
    if one_blinker = false ∨ below_lane_change_speed = true then
      { s with lane_change_state := LaneChangeState.off }
    else if torque_applied = true ∧ blindspot_detected = false then
      { s with lane_change_state := LaneChangeState.laneChangeStarting }
    else s
  else if s.lane_change_state = LaneChangeState.laneChangeStarting then
    if lane_change_prob < 2/100 ∧ max (s.lane_change_ll_prob - 2 * DT_MDL) 0 < 1/100 then
      { s with lane_change_state := LaneChangeState.laneChangeFinishing
               lane_change_ll_prob := max (s.lane_change_ll_prob - 2 * DT_MDL) 0 }
    else
      { s with lane_change_ll_prob := max (s.lane_change_ll_prob - 2 * DT_MDL) 0 }
  else if s.lane_change_state = LaneChangeState.laneChangeFinishing then
    if one_blinker = true ∧ min (s.lane_change_ll_prob + DT_MDL) 1 > 99/100 then
      { s with lane_change_state := LaneChangeState.preLaneChange
               lane_change_ll_prob := min (s.lane_change_ll_prob + DT_MDL) 1 }
    else if min (s.lane_change_ll_prob + DT_MDL) 1 > 99/100 then
      { s with lane_change_state := LaneChangeState.off
               lane_change_ll_prob := min (s.lane_change_ll_prob + DT_MDL) 1 }
    else
      { s with lane_change_ll_prob := min (s.lane_change_ll_prob + DT_MDL) 1 }
  else s

/-- Lines 164-224: the guarded body of the lane-change logic.  When the
controller is not active or the lane-change timer exceeds 10 s, the state
is forced to off and the pre-change timer reset (lines 168-170); otherwise
blinker/direction bookkeeping runs and then the transitions. -/
def laneChangeCore (cfg : AlcConfig) (inp : TickInput) (s : LCState) :
    Except Unit LCState :=
  if !inp.active || decide (s.lane_change_timer > 10) then
    Except.ok { s with lane_change_state := LaneChangeState.off
                       pre_lane_change_timer := Option.some 0 }
  else
    match blinkerDirTimer inp s with
    | Except.error e => Except.error e
    | Except.ok s₁ =>
      match s₁.pre_lane_change_timer with
      | Option.none => Except.error ()
      | Option.some preT =>
        Except.ok (stateTransitions inp.lane_change_prob
          (inp.leftBlinker != inp.rightBlinker)
          (decide (inp.vEgo < cfg.alc_min_speed))
          (torqueApplied cfg inp preT)
          (blindspotDetected inp s₁) s₁)

/-- Lines 226-231: the lane-change timer is zeroed in off/preLaneChange and
accumulated otherwise, then prev_one_blinker is recorded. -/
def timerAndPrev (inp : TickInput) (s : LCState) : LCState :=
  let s' :=
    if s.lane_change_state = LaneChangeState.off ∨
        s.lane_change_state = LaneChangeState.preLaneChange then
      { s with lane_change_timer := 0 }
    else
      { s with lane_change_timer := s.lane_change_timer + DT_MDL }
  { s' with prev_one_blinker := (inp.leftBlinker != inp.rightBlinker) }

/-- One tick of the lane-change logic of LateralPlanner.update,
lines 163-231. -/
def laneChangeTick (cfg : AlcConfig) (inp : TickInput) (s : LCState) :
    Except Unit LCState :=
  match laneChangeCore cfg inp s with
  | Except.error e => Except.error e
  | Except.ok s₂ => Except.ok (timerAndPrev inp s₂)

/-- Iterated ticks; an error aborts the run, as an uncaught Python
exception kills the process. -/
def runTicks (cfg : AlcConfig) : List TickInput → LCState → Except Unit LCState
  | [], s => Except.ok s
  | inp :: rest, s =>
    match laneChangeTick cfg inp s with
    | Except.error e => Except.error e
    | Except.ok s' => runTicks cfg rest s'

/-- States of the lane-change machine reachable from construction through
completed (non-faulting) ticks, under any configuration and inputs. -/
inductive Reachable : LCState → Prop
  | init : Reachable initLCState
  | step (cfg : AlcConfig) (inp : TickInput) (s s' : LCState) :
      Reachable s → laneChangeTick cfg inp s = Except.ok s' → Reachable s'

/-- Inputs to the post-solve failure check, lines 286-300: the solution's
curvature samples (Option.none embeds a NaN sample), the reported cost,
the measured curvature of line 153 (computed upstream from curvature
factor, steering angle, angle offset and steer ratio), and
sec_since_boot. -/
structure FaultInput where
  curvature : List (Option ℚ)
  cost : ℚ
  measured_curvature : ℚ
  t : ℚ
deriving DecidableEq

/-- The planner fields touched by the failure check: cur_state.curvature,
solution_invalid_cnt, last_cloudlog_t. -/
structure FaultState where
  cur_curvature : ℚ
  solution_invalid_cnt : ℕ
  last_cloudlog_t : ℚ
deriving DecidableEq

/-- Result of one failure check: the updated fields, whether
libmpc.init was called to reset the tunable costs (line 290), and whether
the cloudlog diagnostic was emitted (line 295). -/
structure FaultResult where
  st : FaultState
  costs_reinit : Bool
  diagnostic_emitted : Bool
deriving DecidableEq

/-- Values from __init__: cur_state.curvature = 0 (line 99),
solution_invalid_cnt = 0 (line 64), last_cloudlog_t = 0 (line 58). -/
def initFaultState : FaultState :=
  { cur_curvature := 0, solution_invalid_cnt := 0, last_cloudlog_t := 0 }

/-- Line 287: any curvature sample is NaN. -/
def mpc_nans (curvature : List (Option ℚ)) : Bool :=
  curvature.any Option.isNone

/-- Lines 286-300 of LateralPlanner.update.  On NaN: reinitialize the
tunable costs, reseed cur_state.curvature from the measured curvature, and
emit the rate-limited diagnostic (at most once per 5 s of process time).
Then the consecutive-invalid counter: incremented when cost > 20000 or
NaN, reset to 0 otherwise. -/
def checkMpcSolution (inp : FaultInput) (s : FaultState) : FaultResult :=
  let nans := mpc_nans inp.curvature
  let r :=
    if nans then
      if decide (inp.t > s.last_cloudlog_t + 5) then
        ({ s with cur_curvature := inp.measured_curvature
                  last_cloudlog_t := inp.t }, true, true)
      else
        ({ s with cur_curvature := inp.measured_curvature }, true, false)
    else
      (s, false, false)
  let cnt :=
    if decide (inp.cost > 20000) || nans then r.1.solution_invalid_cnt + 1 else 0
  { st := { r.1 with solution_invalid_cnt := cnt }
    costs_reinit := r.2.1
    diagnostic_emitted := r.2.2 }

/-- LateralPlanner.publish line 303: the published mpcSolutionValid flag
is solution_invalid_cnt < 2. -/
def plan_solution_valid (solution_invalid_cnt : ℕ) : Bool :=
  decide (solution_invalid_cnt < 2)

/-- Iterated failure checks, collecting the times at which the diagnostic
was emitted. -/
def runFault : List FaultInput → FaultState → FaultState × List ℚ
  | [], s => (s, [])
  | inp :: rest, s =>
    let r := checkMpcSolution inp s
    let tail := runFault rest r.st
    (tail.1, (if r.diagnostic_emitted then [inp.t] else []) ++ tail.2)

/-- The trajectory forecast fields read on lines 158-161: position x/y/z/t
and orientation x/z of modelV2. -/
structure ModelForecast where
  position_x : List ℚ
  position_y : List ℚ
  position_z : List ℚ
  position_t : List ℚ
  orientation_x : List ℚ
  orientation_z : List ℚ
deriving DecidableEq

/-- The stored forecast fields of LateralPlanner: path_xyz, t_idxs,
plan_yaw (lines 73-75, 159-161). -/
structure PathState where
  path_xyz : List (ℚ × ℚ × ℚ)
  t_idxs : List ℚ
  plan_yaw : List ℚ
deriving DecidableEq

/-- Lines 158-161: the incoming forecast is accepted (overwriting
path_xyz, t_idxs and plan_yaw together) only when both the position and
orientation sequences have the expected horizon length; otherwise nothing
is written and the prior fields stand. -/
def acceptForecast (md : ModelForecast) (s : PathState) : PathState :=
  if md.position_x.length = TRAJECTORY_SIZE ∧
      md.orientation_x.length = TRAJECTORY_SIZE then
    { path_xyz := (md.position_x.zip (md.position_y.zip md.position_z)).map
        (fun p => (p.1, p.2.1, p.2.2))
      t_idxs := md.position_t
      plan_yaw := md.orientation_z }
  else s

/-- selfdrive/car/gm/carstate.py line 72: leftBlinker is TurnSignals == 1. -/
def decodeLeftBlinker (turnSignals : ℤ) : Bool :=
  decide (turnSignals = 1)

/-- selfdrive/car/gm/carstate.py line 73: rightBlinker is TurnSignals == 2. -/
def decodeRightBlinker (turnSignals : ℤ) : Bool :=
  decide (turnSignals = 2)

/-! Characterizations of the failure check (lines 286-300). -/

theorem checkMpc_cnt (inp : FaultInput) (s : FaultState) :
    (checkMpcSolution inp s).st.solution_invalid_cnt =
      if inp.cost > 20000 ∨ mpc_nans inp.curvature = true
      then s.solution_invalid_cnt + 1 else 0 := by
  simp only [checkMpcSolution]
  split_ifs <;> simp_all

theorem checkMpc_reinit (inp : FaultInput) (s : FaultState) :
    (checkMpcSolution inp s).costs_reinit = mpc_nans inp.curvature := by
  simp only [checkMpcSolution]
  split_ifs <;> simp_all

theorem checkMpc_curv (inp : FaultInput) (s : FaultState) :
    (checkMpcSolution inp s).st.cur_curvature =
      if mpc_nans inp.curvature = true then inp.measured_curvature
      else s.cur_curvature := by
  simp only [checkMpcSolution]
  split_ifs <;> simp_all

theorem checkMpc_emitted (inp : FaultInput) (s : FaultState) :
    (checkMpcSolution inp s).diagnostic_emitted =
      (mpc_nans inp.curvature && decide (inp.t > s.last_cloudlog_t + 5)) := by
  simp only [checkMpcSolution]
  split_ifs <;> simp_all

theorem checkMpc_last (inp : FaultInput) (s : FaultState) :
    (checkMpcSolution inp s).st.last_cloudlog_t =
      if (checkMpcSolution inp s).diagnostic_emitted = true then inp.t
      else s.last_cloudlog_t := by
  simp only [checkMpcSolution]
  split_ifs <;> simp_all

/-- Diagnostics collected over a run: every emission is more than 5 s after
the recorded last emission time, and consecutive emissions are more than
5 s apart. -/
theorem runFault_emission_gap (l : List FaultInput) (s : FaultState) :
    (∀ x ∈ (runFault l s).2, s.last_cloudlog_t + 5 < x) ∧
    List.Pairwise (fun a b => a + 5 < b) (runFault l s).2 := by
  induction l generalizing s with
  | nil => simp [runFault]
  | cons i rest ih =>
    simp only [runFault]
    by_cases he : (checkMpcSolution i s).diagnostic_emitted = true
    · have hlast : (checkMpcSolution i s).st.last_cloudlog_t = i.t := by
        rw [checkMpc_last, if_pos he]
      have h2 : (mpc_nans i.curvature && decide (i.t > s.last_cloudlog_t + 5)) = true := by
        rw [← checkMpc_emitted]; exact he
      have hgt : s.last_cloudlog_t + 5 < i.t :=
        of_decide_eq_true ((Bool.and_eq_true _ _).mp h2).2
      obtain ⟨ihall, ihpw⟩ := ih (checkMpcSolution i s).st
      rw [hlast] at ihall
      simp only [he, if_true, List.singleton_append]
      refine ⟨?_, List.pairwise_cons.mpr ⟨fun x hx => ihall x hx, ihpw⟩⟩
      intro x hx
      rcases List.mem_cons.mp hx with hx | hx
      · rw [hx]; exact hgt
      · have := ihall x hx; linarith
    · have hlast : (checkMpcSolution i s).st.last_cloudlog_t = s.last_cloudlog_t := by
        rw [checkMpc_last, if_neg he]
      obtain ⟨ihall, ihpw⟩ := ih (checkMpcSolution i s).st
      rw [hlast] at ihall
      simp only [he, if_false, List.nil_append]
      exact ⟨ihall, ihpw⟩

/-- A solve whose cost exceeds the threshold but whose curvature samples
are all finite. -/
def c2FailInput : FaultInput :=
  { curvature := [Option.some 0], cost := 25000, measured_curvature := 1, t := 0 }

/-- A solve with a NaN curvature sample. -/
def c2NanInput : FaultInput :=
  { curvature := [Option.none], cost := 0, measured_curvature := 7, t := 0 }

/-- Claim C2, amended: the cost reinitialization and the reseeding of the
carried curvature from the measured curvature happen exactly on solves
with a NaN curvature sample; a solve whose cost exceeds 20000 with finite
curvature samples only increments the consecutive-invalid counter,
leaving the costs and the carried curvature untouched. -/
theorem c2_reseed_only_on_nan (inp : FaultInput) (s : FaultState) :
    (mpc_nans inp.curvature = true →
      (checkMpcSolution inp s).costs_reinit = true ∧
      (checkMpcSolution inp s).st.cur_curvature = inp.measured_curvature ∧
      (checkMpcSolution inp s).st.solution_invalid_cnt = s.solution_invalid_cnt + 1) ∧
    (mpc_nans inp.curvature = false →
      (checkMpcSolution inp s).costs_reinit = false ∧
      (checkMpcSolution inp s).st.cur_curvature = s.cur_curvature ∧
      (inp.cost > 20000 →
        (checkMpcSolution inp s).st.solution_invalid_cnt = s.solution_invalid_cnt + 1)) := by
  constructor
  · intro hn
    refine ⟨?_, ?_, ?_⟩
    · rw [checkMpc_reinit, hn]
    · rw [checkMpc_curv, if_pos hn]
    · rw [checkMpc_cnt, if_pos (Or.inr hn)]
  · intro hn
    refine ⟨?_, ?_, ?_⟩
    · rw [checkMpc_reinit, hn]
    · rw [checkMpc_curv, if_neg]; simp [hn]
    · intro hc; rw [checkMpc_cnt, if_pos (Or.inl hc)]

/-- Claim C2, counterexample: a solve with cost 25000 and finite curvature
samples increments the counter but neither reinitializes the costs nor
reseeds the carried curvature from the measured curvature. -/
theorem c2_counterexample :
    c2FailInput.cost > 20000 ∧
    mpc_nans c2FailInput.curvature = false ∧
    (checkMpcSolution c2FailInput initFaultState).st.solution_invalid_cnt =
      initFaultState.solution_invalid_cnt + 1 ∧
    (checkMpcSolution c2FailInput initFaultState).costs_reinit = false ∧
    (checkMpcSolution c2FailInput initFaultState).st.cur_curvature ≠
      c2FailInput.measured_curvature := by
  norm_num [c2FailInput, checkMpcSolution, mpc_nans, initFaultState]

/-- Witness for c2_reseed_only_on_nan at a concrete NaN solve. -/
theorem c2_witness :
    mpc_nans c2NanInput.curvature = true ∧
    ((checkMpcSolution c2NanInput initFaultState).costs_reinit = true ∧
     (checkMpcSolution c2NanInput initFaultState).st.cur_curvature =
       c2NanInput.measured_curvature ∧
     (checkMpcSolution c2NanInput initFaultState).st.solution_invalid_cnt =
       initFaultState.solution_invalid_cnt + 1) := by
  have h : mpc_nans c2NanInput.curvature = true := by norm_num [c2NanInput, mpc_nans]
  exact ⟨h, (c2_reseed_only_on_nan c2NanInput initFaultState).1 h⟩

/-- An invalid solve (cost over threshold, finite curvature). -/
def c3Invalid : FaultInput :=
  { curvature := [Option.some 0], cost := 30000, measured_curvature := 0, t := 0 }

/-- A valid solve. -/
def c3Valid : FaultInput :=
  { curvature := [Option.some 0], cost := 100, measured_curvature := 0, t := 0 }

/-- Claim C3: the published mpcSolutionValid flag is false exactly when the
consecutive-invalid counter has reached 2; two consecutive invalid solves
force it false, and an invalid solve followed by a valid solve (which
resets the counter to 0) keeps it true. -/
theorem c3_validity_flag :
    (∀ cnt : ℕ, plan_solution_valid cnt = false ↔ 2 ≤ cnt) ∧
    (∀ (i j : FaultInput) (s : FaultState),
      i.cost > 20000 ∨ mpc_nans i.curvature = true →
      j.cost > 20000 ∨ mpc_nans j.curvature = true →
      plan_solution_valid
        (checkMpcSolution j (checkMpcSolution i s).st).st.solution_invalid_cnt = false) ∧
    (∀ (i j : FaultInput) (s : FaultState),
      i.cost > 20000 ∨ mpc_nans i.curvature = true →
      ¬(j.cost > 20000 ∨ mpc_nans j.curvature = true) →
      (checkMpcSolution j (checkMpcSolution i s).st).st.solution_invalid_cnt = 0 ∧
      plan_solution_valid
        (checkMpcSolution j (checkMpcSolution i s).st).st.solution_invalid_cnt = true) := by
  refine ⟨?_, ?_, ?_⟩
  · intro cnt
    simp only [plan_solution_valid, decide_eq_false_iff_not, not_lt]
  · intro i j s hi hj
    rw [checkMpc_cnt, if_pos hj, checkMpc_cnt, if_pos hi]
    simp [plan_solution_valid]
  · intro i j s hi hj
    rw [checkMpc_cnt, if_neg hj]
    simp [plan_solution_valid]

/-- Witness for c3_validity_flag at concrete solves. -/
theorem c3_witness :
    plan_solution_valid
      (checkMpcSolution c3Valid
        (checkMpcSolution c3Invalid initFaultState).st).st.solution_invalid_cnt = true ∧
    plan_solution_valid
      (checkMpcSolution c3Invalid
        (checkMpcSolution c3Invalid initFaultState).st).st.solution_invalid_cnt = false := by
  have hi : c3Invalid.cost > 20000 ∨ mpc_nans c3Invalid.curvature = true := by
    norm_num [c3Invalid]
  have hv : ¬(c3Valid.cost > 20000 ∨ mpc_nans c3Valid.curvature = true) := by
    norm_num [c3Valid, mpc_nans]
  exact ⟨(c3_validity_flag.2.2 c3Invalid c3Valid initFaultState hi hv).2,
         c3_validity_flag.2.1 c3Invalid c3Invalid initFaultState hi hi⟩

/-- A solve with cost 25000 and finite curvature samples at time t. -/
def c4DivergedInput (t : ℚ) : FaultInput :=
  { curvature := [Option.some 0], cost := 25000, measured_curvature := 0, t := t }

/-- Claim C4, counterexample: three consecutive ticks with cost 25000 and
finite curvature drive the counter to 3 and the validity flag false after
the second tick, but the number of emitted diagnostics is 0, not 1. -/
theorem c4_counterexample :
    (runFault [c4DivergedInput (1/20), c4DivergedInput (2/20), c4DivergedInput (3/20)]
      initFaultState).1.solution_invalid_cnt = 3 ∧
    plan_solution_valid
      ((runFault [c4DivergedInput (1/20), c4DivergedInput (2/20)]
        initFaultState).1.solution_invalid_cnt) = false ∧
    (runFault [c4DivergedInput (1/20), c4DivergedInput (2/20), c4DivergedInput (3/20)]
      initFaultState).2 = [] := by
  norm_num [c4DivergedInput, runFault, checkMpcSolution, mpc_nans,
    plan_solution_valid, initFaultState]

/-- Claim C4, amended: under three consecutive cost-25000 finite-curvature
solves the counter reaches 3 and the validity flag is false after the
second tick, but no divergence diagnostic at all is emitted (the
diagnostic is tied to NaN solutions); and over any run, no two diagnostics
are ever emitted within 5 seconds of process time of each other. -/
theorem c4_amended_no_diagnostic :
    ((runFault [c4DivergedInput (1/20), c4DivergedInput (2/20), c4DivergedInput (3/20)]
        initFaultState).1.solution_invalid_cnt = 3 ∧
     plan_solution_valid
       ((runFault [c4DivergedInput (1/20), c4DivergedInput (2/20)]
         initFaultState).1.solution_invalid_cnt) = false ∧
     (runFault [c4DivergedInput (1/20), c4DivergedInput (2/20), c4DivergedInput (3/20)]
       initFaultState).2 = []) ∧
    (∀ (l : List FaultInput) (s : FaultState),
      List.Pairwise (fun a b => a + 5 < b) (runFault l s).2) := by
  constructor
  · norm_num [c4DivergedInput, runFault, checkMpcSolution, mpc_nans,
      plan_solution_valid, initFaultState]
  · intro l s
    exact (runFault_emission_gap l s).2

/-! Structural lemmas about one tick of the lane-change machine. -/

theorem blinkerDirTimer_ok {inp : TickInput} {s s₁ : LCState}
    (h : blinkerDirTimer inp s = Except.ok s₁) :
    s₁.lane_change_state = s.lane_change_state ∧
    s₁.lane_change_ll_prob = s.lane_change_ll_prob ∧
    s₁.lane_change_timer = s.lane_change_timer ∧
    s₁.prev_one_blinker = s.prev_one_blinker ∧
    (s₁.lane_change_direction = s.lane_change_direction ∨
      s₁.lane_change_direction = LaneChangeDirection.left ∨
      s₁.lane_change_direction = LaneChangeDirection.right) ∧
    ((inp.leftBlinker != inp.rightBlinker) = true →
      s₁.lane_change_direction ≠ LaneChangeDirection.none) := by
  unfold blinkerDirTimer at h
  split_ifs at h with h1 h2
  · cases hp : s.pre_lane_change_timer with
    | none => rw [hp] at h; exact absurd h (by simp)
    | some t =>
      rw [hp] at h
      injection h with h
      subst h
      refine ⟨rfl, rfl, rfl, rfl, Or.inr (Or.inl rfl), ?_⟩
      intro _ hciq
      exact LaneChangeDirection.noConfusion hciq
  · cases hp : s.pre_lane_change_timer with
    | none => rw [hp] at h; exact absurd h (by simp)
    | some t =>
      rw [hp] at h
      injection h with h
      subst h
      refine ⟨rfl, rfl, rfl, rfl, Or.inr (Or.inr rfl), ?_⟩
      intro _ hciq
      exact LaneChangeDirection.noConfusion hciq
  · injection h with h
    subst h
    refine ⟨rfl, rfl, rfl, rfl, Or.inl rfl, ?_⟩
    intro hb
    rw [Bool.not_eq_true] at h1 h2
    rw [h1, h2] at hb
    simp at hb

theorem laneChangeCore_ok_cases {cfg : AlcConfig} {inp : TickInput} {s s₂ : LCState}
    (h : laneChangeCore cfg inp s = Except.ok s₂) :
    ((!inp.active || decide (s.lane_change_timer > 10)) = true ∧
      s₂ = { s with lane_change_state := LaneChangeState.off
                    pre_lane_change_timer := Option.some 0 }) ∨
    ((!inp.active || decide (s.lane_change_timer > 10)) = false ∧
      ∃ s₁ preT, blinkerDirTimer inp s = Except.ok s₁ ∧
        s₁.pre_lane_change_timer = Option.some preT ∧
        s₂ = stateTransitions inp.lane_change_prob
          (inp.leftBlinker != inp.rightBlinker)
          (decide (inp.vEgo < cfg.alc_min_speed))
          (torqueApplied cfg inp preT)
          (blindspotDetected inp s₁) s₁) := by
  unfold laneChangeCore at h
  split at h
  next hc =>
    injection h with h
    exact Or.inl ⟨hc, h.symm⟩
  next hc =>
    have hc' : (!inp.active || decide (s.lane_change_timer > 10)) = false := by
      simpa using hc
    refine Or.inr ⟨hc', ?_⟩
    split at h
    next e heq => exact absurd h (by simp)
    next s₁ heq =>
      split at h
      next hp => exact absurd h (by simp)
      next preT hp =>
        injection h with h
        exact ⟨s₁, preT, heq, hp, h.symm⟩

theorem stateTransitions_dir (p : ℚ) (ob bl ta bd : Bool) (s : LCState) :
    (stateTransitions p ob bl ta bd s).lane_change_direction =
      s.lane_change_direction := by
  unfold stateTransitions
  split_ifs <;> rfl

theorem stateTransitions_timer (p : ℚ) (ob bl ta bd : Bool) (s : LCState) :
    (stateTransitions p ob bl ta bd s).lane_change_timer = s.lane_change_timer := by
  unfold stateTransitions
  split_ifs <;> rfl

theorem timerAndPrev_fields (inp : TickInput) (s : LCState) :
    (timerAndPrev inp s).lane_change_state = s.lane_change_state ∧
    (timerAndPrev inp s).lane_change_direction = s.lane_change_direction ∧
    (timerAndPrev inp s).lane_change_ll_prob = s.lane_change_ll_prob ∧
    (timerAndPrev inp s).lane_change_timer =
      (if s.lane_change_state = LaneChangeState.off ∨
          s.lane_change_state = LaneChangeState.preLaneChange then 0
       else s.lane_change_timer + DT_MDL) := by
  unfold timerAndPrev
  split_ifs <;> exact ⟨rfl, rfl, rfl, rfl⟩

theorem laneChangeTick_ok_elim {cfg : AlcConfig} {inp : TickInput} {s s' : LCState}
    (h : laneChangeTick cfg inp s = Except.ok s') :
    ∃ s₂, laneChangeCore cfg inp s = Except.ok s₂ ∧ s' = timerAndPrev inp s₂ := by
  unfold laneChangeTick at h
  split at h
  next e heq => exact absurd h (by simp)
  next s₂ heq =>
    injection h with h
    exact ⟨s₂, heq, h.symm⟩

theorem laneChangeCore_timer {cfg : AlcConfig} {inp : TickInput} {s s₂ : LCState}
    (h : laneChangeCore cfg inp s = Except.ok s₂) :
    s₂.lane_change_timer = s.lane_change_timer := by
  rcases laneChangeCore_ok_cases h with ⟨_, rfl⟩ | ⟨_, s₁, preT, hb, hp, rfl⟩
  · rfl
  · rw [stateTransitions_timer]
    exact (blinkerDirTimer_ok hb).2.2.1

theorem runTicks_cons_ok {cfg : AlcConfig} {inp : TickInput} {s s' : LCState}
    {l : List TickInput} (h : laneChangeTick cfg inp s = Except.ok s') :
    runTicks cfg (inp :: l) s = runTicks cfg l s' := by
  simp [runTicks, h]

theorem stateTransitions_prob_cases (p : ℚ) (ob bl ta bd : Bool) (s : LCState) :
    (stateTransitions p ob bl ta bd s).lane_change_ll_prob = s.lane_change_ll_prob ∨
    (stateTransitions p ob bl ta bd s).lane_change_ll_prob = 1 ∨
    (stateTransitions p ob bl ta bd s).lane_change_ll_prob =
      max (s.lane_change_ll_prob - 2 * DT_MDL) 0 ∨
    (stateTransitions p ob bl ta bd s).lane_change_ll_prob =
      min (s.lane_change_ll_prob + DT_MDL) 1 := by
  unfold stateTransitions
  split_ifs <;> simp

theorem stateTransitions_prob_starting (p : ℚ) (ob bl ta bd : Bool) (s : LCState)
    (hs : s.lane_change_state = LaneChangeState.laneChangeStarting) :
    (stateTransitions p ob bl ta bd s).lane_change_ll_prob =
      max (s.lane_change_ll_prob - 2 * DT_MDL) 0 := by
  unfold stateTransitions
  split_ifs <;> simp_all

theorem stateTransitions_prob_finishing (p : ℚ) (ob bl ta bd : Bool) (s : LCState)
    (hs : s.lane_change_state = LaneChangeState.laneChangeFinishing) :
    (stateTransitions p ob bl ta bd s).lane_change_ll_prob =
      min (s.lane_change_ll_prob + DT_MDL) 1 := by
  unfold stateTransitions
  split_ifs <;> simp_all

theorem stateTransitions_enter_pre (p : ℚ) (ob bl ta bd : Bool) (s : LCState)
    (hpre : (stateTransitions p ob bl ta bd s).lane_change_state =
      LaneChangeState.preLaneChange)
    (hnot : s.lane_change_state ≠ LaneChangeState.preLaneChange) :
    (s.lane_change_state = LaneChangeState.off ∧
      (stateTransitions p ob bl ta bd s).lane_change_ll_prob = 1) ∨
    (s.lane_change_state = LaneChangeState.laneChangeFinishing ∧
      (stateTransitions p ob bl ta bd s).lane_change_ll_prob =
        min (s.lane_change_ll_prob + DT_MDL) 1 ∧
      99/100 < (stateTransitions p ob bl ta bd s).lane_change_ll_prob) := by
  unfold stateTransitions at hpre ⊢
  split_ifs at hpre ⊢ <;> simp_all

theorem stateTransitions_state_off_cases (p : ℚ) (ob bl ta bd : Bool) (s : LCState)
    (hoff : s.lane_change_state = LaneChangeState.off)
    (hne : (stateTransitions p ob bl ta bd s).lane_change_state ≠ LaneChangeState.off) :
    ob = true := by
  unfold stateTransitions at hne
  split_ifs at hne <;> simp_all

/-- Every reachable blend factor is a multiple of the tick period: a
natural k at most 20 with factor k/20. -/
def ProbQuantized (s : LCState) : Prop :=
  ∃ k : ℕ, k ≤ 20 ∧ s.lane_change_ll_prob = (k : ℚ)/20

theorem probQuantized_step {cfg : AlcConfig} {inp : TickInput} {s s' : LCState}
    (hq : ProbQuantized s) (h : laneChangeTick cfg inp s = Except.ok s') :
    ProbQuantized s' := by
  obtain ⟨k, hk, hkp⟩ := hq
  obtain ⟨s₂, hcore, rfl⟩ := laneChangeTick_ok_elim h
  have hp2 : (timerAndPrev inp s₂).lane_change_ll_prob = s₂.lane_change_ll_prob :=
    (timerAndPrev_fields inp s₂).2.2.1
  unfold ProbQuantized
  rw [hp2]
  rcases laneChangeCore_ok_cases hcore with ⟨_, rfl⟩ | ⟨_, s₁, preT, hb, hpre, rfl⟩
  · exact ⟨k, hk, hkp⟩
  · have hb1 : s₁.lane_change_ll_prob = s.lane_change_ll_prob := (blinkerDirTimer_ok hb).2.1
    rcases stateTransitions_prob_cases inp.lane_change_prob
        (inp.leftBlinker != inp.rightBlinker)
        (decide (inp.vEgo < cfg.alc_min_speed))
        (torqueApplied cfg inp preT)
        (blindspotDetected inp s₁) s₁ with hc | hc | hc | hc
    · rw [hc, hb1]
      exact ⟨k, hk, hkp⟩
    · rw [hc]
      exact ⟨20, le_refl 20, by norm_num⟩
    · rw [hc, hb1, hkp]
      by_cases h2 : 2 ≤ k
      · refine ⟨k - 2, by omega, ?_⟩
        have hcast : ((k - 2 : ℕ) : ℚ) = (k : ℚ) - 2 := by
          push_cast [h2]
          ring
        have hk2 : (2 : ℚ) ≤ (k : ℚ) := by exact_mod_cast h2
        rw [max_eq_left (by simp only [DT_MDL]; linarith), hcast]
        simp only [DT_MDL]
        ring
      · have hk0 : k = 0 ∨ k = 1 := by omega
        refine ⟨0, by omega, ?_⟩
        have hkle : (k : ℚ) ≤ 1 := by
          rcases hk0 with h0 | h0 <;> rw [h0] <;> norm_num
        rw [max_eq_right (by simp only [DT_MDL]; linarith)]
        norm_num
    · rw [hc, hb1, hkp]
      by_cases h2 : k + 1 ≤ 20
      · refine ⟨k + 1, h2, ?_⟩
        have hkle : (k : ℚ) + 1 ≤ 20 := by exact_mod_cast h2
        rw [min_eq_left (by simp only [DT_MDL]; linarith)]
        simp only [DT_MDL]
        push_cast
        ring
      · have h20 : k = 20 := by omega
        subst h20
        refine ⟨20, le_refl 20, ?_⟩
        rw [min_eq_right (by simp only [DT_MDL]; norm_num)]
        norm_num

theorem reachable_quantized {s : LCState} (h : Reachable s) : ProbQuantized s := by
  induction h with
  | init => exact ⟨20, le_refl 20, by norm_num [initLCState]⟩
  | step cfg inp t t' ht hstep ih => exact probQuantized_step ih hstep

theorem probQuantized_bounds {s : LCState} (hq : ProbQuantized s) :
    0 ≤ s.lane_change_ll_prob ∧ s.lane_change_ll_prob ≤ 1 := by
  obtain ⟨k, hk, hkp⟩ := hq
  rw [hkp]
  have hkle : (k : ℚ) ≤ 20 := by exact_mod_cast hk
  constructor
  · positivity
  · rw [div_le_one (by norm_num)]
    exact hkle

/-- Claim C5: on every completed tick the lane-change timer ends at 0 when
the (post-transition) state is off or preLaneChange, ends at exactly the
prior value plus one tick period when the state is laneChangeStarting or
laneChangeFinishing, and a timer above 10 s at the start of a tick forces
the state to off on that tick regardless of any other condition. -/
theorem c5_lane_change_timer (cfg : AlcConfig) (inp : TickInput) (s s' : LCState)
    (h : laneChangeTick cfg inp s = Except.ok s') :
    ((s'.lane_change_state = LaneChangeState.off ∨
        s'.lane_change_state = LaneChangeState.preLaneChange) →
      s'.lane_change_timer = 0) ∧
    ((s'.lane_change_state = LaneChangeState.laneChangeStarting ∨
        s'.lane_change_state = LaneChangeState.laneChangeFinishing) →
      s'.lane_change_timer = s.lane_change_timer + DT_MDL) ∧
    (s.lane_change_timer > 10 → s'.lane_change_state = LaneChangeState.off) := by
  obtain ⟨s₂, hcore, rfl⟩ := laneChangeTick_ok_elim h
  obtain ⟨hst, hdir, hpp, htm⟩ := timerAndPrev_fields inp s₂
  have htimer2 : s₂.lane_change_timer = s.lane_change_timer := laneChangeCore_timer hcore
  refine ⟨?_, ?_, ?_⟩
  · intro hs
    rw [hst] at hs
    rw [htm, if_pos hs]
  · intro hs
    rw [hst] at hs
    have hnot : ¬(s₂.lane_change_state = LaneChangeState.off ∨
        s₂.lane_change_state = LaneChangeState.preLaneChange) := by
      rcases hs with hs | hs <;> rw [hs] <;> intro hcon <;>
        rcases hcon with hcon | hcon <;> exact LaneChangeState.noConfusion hcon
    rw [htm, if_neg hnot, htimer2]
  · intro hgt
    rcases laneChangeCore_ok_cases hcore with ⟨_, rfl⟩ | ⟨hc, _⟩
    · rw [hst]
    · exfalso
      rw [Bool.or_eq_false_iff] at hc
      exact (of_decide_eq_false hc.2) hgt

/-- Configuration with nudge-less mode disabled (torque confirmation
required). -/
def alcConfigTorque : AlcConfig :=
  { alc_nudge_less := false, alc_min_speed := 67/10, alc_timer := 2 }

/-- Configuration with nudge-less mode enabled and a zero nudge-less
timer. -/
def alcConfigNudgeLess : AlcConfig :=
  { alc_nudge_less := true, alc_min_speed := 67/10, alc_timer := 0 }

/-- A well-formed tick input at 20 m/s with no blind spot. -/
def mkTick (active l r : Bool) (torque : ℚ) (pressed : Bool) : TickInput :=
  { vEgo := 20, active := active, leftBlinker := l, rightBlinker := r,
    leftBlindspot := false, rightBlindspot := false,
    steeringTorque := torque, steeringPressed := pressed, lane_change_prob := 0 }

/-- Controller active, no blinker, no torque. -/
def tickPlain : TickInput := mkTick true false false 0 false

/-- Controller active, left blinker held, no torque. -/
def tickLeft : TickInput := mkTick true true false 0 false

/-- A state whose lane-change timer has exceeded the 10 s ceiling. -/
def c5AbortState : LCState :=
  { lane_change_state := LaneChangeState.laneChangeStarting
    lane_change_direction := LaneChangeDirection.left
    lane_change_timer := 11
    pre_lane_change_timer := Option.some 0
    lane_change_ll_prob := 1/2
    prev_one_blinker := false }

/-- The state one tick after c5AbortState: forced off, timer zeroed. -/
def c5OutState : LCState :=
  { lane_change_state := LaneChangeState.off
    lane_change_direction := LaneChangeDirection.left
    lane_change_timer := 0
    pre_lane_change_timer := Option.some 0
    lane_change_ll_prob := 1/2
    prev_one_blinker := false }

/-- Witness for c5_lane_change_timer at a concrete over-ceiling state. -/
theorem c5_witness :
    laneChangeTick alcConfigTorque tickPlain c5AbortState = Except.ok c5OutState ∧
    c5AbortState.lane_change_timer > 10 ∧
    c5OutState.lane_change_state = LaneChangeState.off ∧
    c5OutState.lane_change_timer = 0 := by
  have hrun : laneChangeTick alcConfigTorque tickPlain c5AbortState =
      Except.ok c5OutState := by
    norm_num [laneChangeTick, laneChangeCore, blinkerDirTimer, stateTransitions,
      timerAndPrev, torqueApplied, blindspotDetected, c5AbortState, alcConfigTorque,
      tickPlain, mkTick, DT_MDL, c5OutState] <;> first
    | decide
    | (simp <;> first
        | decide
        | norm_num)
  have hgt : c5AbortState.lane_change_timer > 10 := by norm_num [c5AbortState]
  have hoff := (c5_lane_change_timer alcConfigTorque tickPlain c5AbortState
    c5OutState hrun).2.2 hgt
  exact ⟨hrun, hgt, hoff,
    (c5_lane_change_timer alcConfigTorque tickPlain c5AbortState c5OutState hrun).1
      (Or.inl hoff)⟩

/-- Claim C6: over any reachable state the blend factor lies in [0,1]; a
tick from laneChangeStarting never increases it and a tick from
laneChangeFinishing never decreases it; while the state machine is live
(controller active, timer within the ceiling) the starting fade is exactly
max(p - 2 DT_MDL, 0) and the finishing fade exactly min(p + DT_MDL, 1);
and whenever a tick enters preLaneChange from another state the factor is
1. -/
theorem c6_blend_factor (s : LCState) (hs : Reachable s) :
    (0 ≤ s.lane_change_ll_prob ∧ s.lane_change_ll_prob ≤ 1) ∧
    (∀ (cfg : AlcConfig) (inp : TickInput) (s' : LCState),
      laneChangeTick cfg inp s = Except.ok s' →
      (s.lane_change_state = LaneChangeState.laneChangeStarting →
        s'.lane_change_ll_prob ≤ s.lane_change_ll_prob) ∧
      (s.lane_change_state = LaneChangeState.laneChangeFinishing →
        s.lane_change_ll_prob ≤ s'.lane_change_ll_prob) ∧
      (inp.active = true → s.lane_change_timer ≤ 10 →
        (s.lane_change_state = LaneChangeState.laneChangeStarting →
          s'.lane_change_ll_prob = max (s.lane_change_ll_prob - 2 * DT_MDL) 0) ∧
        (s.lane_change_state = LaneChangeState.laneChangeFinishing →
          s'.lane_change_ll_prob = min (s.lane_change_ll_prob + DT_MDL) 1)) ∧
      (s.lane_change_state ≠ LaneChangeState.preLaneChange →
        s'.lane_change_state = LaneChangeState.preLaneChange →
        s'.lane_change_ll_prob = 1)) := by
  have hbounds := probQuantized_bounds (reachable_quantized hs)
  refine ⟨hbounds, ?_⟩
  intro cfg inp s' h
  obtain ⟨s₂, hcore, hs'eq⟩ := laneChangeTick_ok_elim h
  subst hs'eq
  have hps : (timerAndPrev inp s₂).lane_change_ll_prob = s₂.lane_change_ll_prob :=
    (timerAndPrev_fields inp s₂).2.2.1
  have hss : (timerAndPrev inp s₂).lane_change_state = s₂.lane_change_state :=
    (timerAndPrev_fields inp s₂).1
  rcases laneChangeCore_ok_cases hcore with ⟨hforce, rfl⟩ | ⟨hc, s₁, preT, hb, hpre, rfl⟩
  · refine ⟨?_, ?_, ?_, ?_⟩
    · intro _
      rw [hps]
    · intro _
      rw [hps]
    · intro hact hle
      exfalso
      rw [Bool.or_eq_true] at hforce
      rcases hforce with hf | hf
      · rw [hact] at hf
        simp at hf
      · exact absurd (of_decide_eq_true hf) (not_lt.mpr hle)
    · intro _ hpre'
      rw [hss] at hpre'
      exact absurd hpre' (fun hcc => LaneChangeState.noConfusion hcc)
  · obtain ⟨hbst, hbp, hbt, hbprev, hbdir, hbone⟩ := blinkerDirTimer_ok hb
    refine ⟨?_, ?_, ?_, ?_⟩
    · intro hst0
      rw [hps, stateTransitions_prob_starting _ _ _ _ _ _ (hbst.trans hst0), hbp]
      apply max_le
      · simp only [DT_MDL]
        linarith
      · exact hbounds.1
    · intro hst0
      rw [hps, stateTransitions_prob_finishing _ _ _ _ _ _ (hbst.trans hst0), hbp]
      apply le_min
      · simp only [DT_MDL]
        linarith
      · exact hbounds.2
    · intro hact hle
      constructor
      · intro hst0
        rw [hps, stateTransitions_prob_starting _ _ _ _ _ _ (hbst.trans hst0), hbp]
      · intro hst0
        rw [hps, stateTransitions_prob_finishing _ _ _ _ _ _ (hbst.trans hst0), hbp]
    · intro hnot hpre'
      rw [hss] at hpre'
      have hnot1 : s₁.lane_change_state ≠ LaneChangeState.preLaneChange := by
        rw [hbst]
        exact hnot
      rcases stateTransitions_enter_pre _ _ _ _ _ _ hpre' hnot1 with
        ⟨hoff, hp1⟩ | ⟨hfin, hpmin, hgt⟩
      · rw [hps, hp1]
      · have hs2 : Reachable (timerAndPrev inp (stateTransitions inp.lane_change_prob
            (inp.leftBlinker != inp.rightBlinker)
            (decide (inp.vEgo < cfg.alc_min_speed))
            (torqueApplied cfg inp preT)
            (blindspotDetected inp s₁) s₁)) :=
          Reachable.step cfg inp s _ hs h
        obtain ⟨m, hm, hmp⟩ := reachable_quantized hs2
        have h99 : 99/100 < (m : ℚ)/20 := by
          rw [← hmp, hps]
          exact hgt
        have h19 : (19 : ℚ) < (m : ℚ) := by linarith
        have h19n : 19 < m := by exact_mod_cast h19
        have hm20 : m = 20 := by omega
        rw [hmp, hm20]
        norm_num

/-- The state one completed tick after construction, under an active tick
with no blinker. -/
def tickedInitState : LCState :=
  { lane_change_state := LaneChangeState.off
    lane_change_direction := LaneChangeDirection.none
    lane_change_timer := 0
    pre_lane_change_timer := Option.some 0
    lane_change_ll_prob := 1
    prev_one_blinker := false }

/-- Witness for c6_blend_factor at the initial state and a concrete tick. -/
theorem c6_witness :
    (0 ≤ initLCState.lane_change_ll_prob ∧ initLCState.lane_change_ll_prob ≤ 1) ∧
    (initLCState.lane_change_state = LaneChangeState.laneChangeStarting →
      tickedInitState.lane_change_ll_prob ≤ initLCState.lane_change_ll_prob) := by
  have hrun : laneChangeTick alcConfigTorque tickPlain initLCState =
      Except.ok tickedInitState := by
    norm_num [laneChangeTick, laneChangeCore, blinkerDirTimer, stateTransitions,
      timerAndPrev, torqueApplied, blindspotDetected, initLCState, tickedInitState,
      alcConfigTorque, tickPlain, mkTick, DT_MDL] <;> first
    | decide
    | (simp <;> first
        | decide
        | norm_num)
  exact ⟨(c6_blend_factor initLCState Reachable.init).1,
    ((c6_blend_factor initLCState Reachable.init).2 alcConfigTorque tickPlain
      tickedInitState hrun).1⟩

theorem laneChangeTick_dir_cases {cfg : AlcConfig} {inp : TickInput} {s s' : LCState}
    (h : laneChangeTick cfg inp s = Except.ok s') :
    s'.lane_change_direction = s.lane_change_direction ∨
    s'.lane_change_direction = LaneChangeDirection.left ∨
    s'.lane_change_direction = LaneChangeDirection.right := by
  obtain ⟨s₂, hcore, rfl⟩ := laneChangeTick_ok_elim h
  have hdir : (timerAndPrev inp s₂).lane_change_direction = s₂.lane_change_direction :=
    (timerAndPrev_fields inp s₂).2.1
  rw [hdir]
  rcases laneChangeCore_ok_cases hcore with ⟨_, rfl⟩ | ⟨_, s₁, preT, hb, hpre, rfl⟩
  · exact Or.inl rfl
  · rw [stateTransitions_dir]
    exact (blinkerDirTimer_ok hb).2.2.2.2.1

theorem reachable_dir_ne_none {s : LCState} (h : Reachable s) :
    s.lane_change_state ≠ LaneChangeState.off →
    s.lane_change_direction ≠ LaneChangeDirection.none := by
  induction h with
  | init => intro hne; exact absurd rfl hne
  | step cfg inp t t' ht hstep ih =>
    intro hne
    obtain ⟨s₂, hcore, rfl⟩ := laneChangeTick_ok_elim hstep
    have hst : (timerAndPrev inp s₂).lane_change_state = s₂.lane_change_state :=
      (timerAndPrev_fields inp s₂).1
    have hdir : (timerAndPrev inp s₂).lane_change_direction = s₂.lane_change_direction :=
      (timerAndPrev_fields inp s₂).2.1
    rw [hst] at hne
    rw [hdir]
    rcases laneChangeCore_ok_cases hcore with ⟨_, rfl⟩ | ⟨_, s₁, preT, hb, hpre, rfl⟩
    · exact absurd rfl hne
    · obtain ⟨hbst, _hbp, _hbt, _hbprev, hbdir, hbone⟩ := blinkerDirTimer_ok hb
      rw [stateTransitions_dir]
      by_cases hoff : t.lane_change_state = LaneChangeState.off
      · exact hbone (stateTransitions_state_off_cases _ _ _ _ _ _ (hbst.trans hoff) hne)
      · have hdt : t.lane_change_direction ≠ LaneChangeDirection.none := ih hoff
        rcases hbdir with hd | hd | hd <;> rw [hd]
        · exact hdt
        · exact fun hcc => LaneChangeDirection.noConfusion hcc
        · exact fun hcc => LaneChangeDirection.noConfusion hcc

/-- Claim C8, amended: in every reachable state, a state other than off has
a direction other than none; but the direction is never reset to none by
any completed tick — in particular it keeps its last value when the state
returns to off from laneChangeFinishing. -/
theorem c8_amended_direction :
    (∀ s : LCState, Reachable s →
      s.lane_change_state ≠ LaneChangeState.off →
      s.lane_change_direction ≠ LaneChangeDirection.none) ∧
    (∀ (cfg : AlcConfig) (inp : TickInput) (s s' : LCState),
      laneChangeTick cfg inp s = Except.ok s' →
      s.lane_change_direction ≠ LaneChangeDirection.none →
      s'.lane_change_direction ≠ LaneChangeDirection.none) := by
  constructor
  · exact fun s hs => reachable_dir_ne_none hs
  · intro cfg inp s s' h hd
    rcases laneChangeTick_dir_cases h with hc | hc | hc <;> rw [hc]
    · exact hd
    · exact fun hcc => LaneChangeDirection.noConfusion hcc
    · exact fun hcc => LaneChangeDirection.noConfusion hcc

/-- Witness for c8_amended_direction at a concrete tick. -/
theorem c8_witness :
    laneChangeTick alcConfigTorque tickPlain c5AbortState = Except.ok c5OutState ∧
    c5OutState.lane_change_direction ≠ LaneChangeDirection.none := by
  have hrun : laneChangeTick alcConfigTorque tickPlain c5AbortState =
      Except.ok c5OutState := by
    norm_num [laneChangeTick, laneChangeCore, blinkerDirTimer, stateTransitions,
      timerAndPrev, torqueApplied, blindspotDetected, c5AbortState, alcConfigTorque,
      tickPlain, mkTick, DT_MDL, c5OutState] <;> first
    | decide
    | (simp <;> first
        | decide
        | norm_num)
  refine ⟨hrun,
    c8_amended_direction.2 alcConfigTorque tickPlain c5AbortState c5OutState hrun ?_⟩
  simp [c5AbortState]

/-- preLaneChange with a left blinker, positive driver torque,
steeringPressed, and no blind spot. -/
def c1PosTorqueTick : TickInput := mkTick true true false 50 true

/-- Same tick but with negative (rightward) torque. -/
def c1NegTorqueTick : TickInput := mkTick true true false (-50) true

/-- Claim C1, code evaluation at the failing input: with nudge-less mode
disabled, after reaching preLaneChange with a left blinker (direction
left), a tick with positive steering torque and steeringPressed and no
blind spot does NOT transition to laneChangeStarting (the state stays
preLaneChange), while the same tick with negative torque does transition.
The torque check on line 185 reads the local lane_change_direction of
line 164, which is always none, so every direction uses the
negative-torque test. -/
theorem c1_torque_direction_bug :
    alcConfigTorque.alc_nudge_less = false ∧
    c1PosTorqueTick.steeringTorque > 0 ∧
    c1PosTorqueTick.steeringPressed = true ∧
    c1PosTorqueTick.leftBlindspot = false ∧
    (runTicks alcConfigTorque [tickPlain, tickLeft] initLCState).map
      LCState.lane_change_state = Except.ok LaneChangeState.preLaneChange ∧
    (runTicks alcConfigTorque [tickPlain, tickLeft] initLCState).map
      LCState.lane_change_direction = Except.ok LaneChangeDirection.left ∧
    (runTicks alcConfigTorque [tickPlain, tickLeft, c1PosTorqueTick] initLCState).map
      LCState.lane_change_state = Except.ok LaneChangeState.preLaneChange ∧
    c1NegTorqueTick.steeringTorque < 0 ∧
    (runTicks alcConfigTorque [tickPlain, tickLeft, c1NegTorqueTick] initLCState).map
      LCState.lane_change_state = Except.ok LaneChangeState.laneChangeStarting := by
  have ha : laneChangeTick alcConfigTorque tickPlain initLCState =
      Except.ok (⟨LaneChangeState.off, LaneChangeDirection.none, 0,
        Option.some 0, 1, false⟩ : LCState) := by
    norm_num [laneChangeTick, laneChangeCore, blinkerDirTimer, stateTransitions,
      timerAndPrev, torqueApplied, blindspotDetected, initLCState, alcConfigTorque,
      tickPlain, mkTick, DT_MDL] <;> first
    | decide
    | (simp <;> first
        | decide
        | norm_num)
  have hb : laneChangeTick alcConfigTorque tickLeft
      (⟨LaneChangeState.off, LaneChangeDirection.none, 0,
        Option.some 0, 1, false⟩ : LCState) =
      Except.ok (⟨LaneChangeState.preLaneChange, LaneChangeDirection.left, 0,
        Option.some (1/20), 1, true⟩ : LCState) := by
    norm_num [laneChangeTick, laneChangeCore, blinkerDirTimer, stateTransitions,
      timerAndPrev, torqueApplied, blindspotDetected, alcConfigTorque,
      tickLeft, mkTick, DT_MDL] <;> first
    | decide
    | (simp <;> first
        | decide
        | norm_num)
  have hcp : laneChangeTick alcConfigTorque c1PosTorqueTick
      (⟨LaneChangeState.preLaneChange, LaneChangeDirection.left, 0,
        Option.some (1/20), 1, true⟩ : LCState) =
      Except.ok (⟨LaneChangeState.preLaneChange, LaneChangeDirection.left, 0,
        Option.some (1/10), 1, true⟩ : LCState) := by
    norm_num [laneChangeTick, laneChangeCore, blinkerDirTimer, stateTransitions,
      timerAndPrev, torqueApplied, blindspotDetected, alcConfigTorque,
      c1PosTorqueTick, mkTick, DT_MDL] <;> first
    | decide
    | (simp <;> first
        | decide
        | norm_num)
  have hcn : laneChangeTick alcConfigTorque c1NegTorqueTick
      (⟨LaneChangeState.preLaneChange, LaneChangeDirection.left, 0,
        Option.some (1/20), 1, true⟩ : LCState) =
      Except.ok (⟨LaneChangeState.laneChangeStarting, LaneChangeDirection.left, 1/20,
        Option.some (1/10), 1, true⟩ : LCState) := by
    norm_num [laneChangeTick, laneChangeCore, blinkerDirTimer, stateTransitions,
      timerAndPrev, torqueApplied, blindspotDetected, alcConfigTorque,
      c1NegTorqueTick, mkTick, DT_MDL] <;> first
    | decide
    | (simp <;> first
        | decide
        | norm_num)
  refine ⟨rfl, by norm_num [c1PosTorqueTick, mkTick], rfl, rfl, ?_, ?_, ?_,
    by norm_num [c1NegTorqueTick, mkTick], ?_⟩
  · rw [runTicks_cons_ok ha, runTicks_cons_ok hb]
    rfl
  · rw [runTicks_cons_ok ha, runTicks_cons_ok hb]
    rfl
  · rw [runTicks_cons_ok ha, runTicks_cons_ok hb, runTicks_cons_ok hcp]
    rfl
  · rw [runTicks_cons_ok ha, runTicks_cons_ok hb, runTicks_cons_ok hcn]
    rfl

/-- Claim C9, code evaluation at the failing input: the very first tick of
a freshly constructed planner with the controller active and the left
blinker engaged faults, because line 174 does += on
self.pre_lane_change_timer, an attribute never assigned in __init__. -/
theorem c9_first_tick_fault :
    tickLeft.active = true ∧
    tickLeft.leftBlinker = true ∧
    initLCState.pre_lane_change_timer = Option.none ∧
    laneChangeTick alcConfigTorque tickLeft initLCState = Except.error () := by
  refine ⟨rfl, rfl, rfl, ?_⟩
  norm_num [laneChangeTick, laneChangeCore, blinkerDirTimer, initLCState,
    alcConfigTorque, tickLeft, mkTick] <;> first
  | decide
  | (simp <;> first
      | decide
      | norm_num)

/-- Claim C7: when the incoming forecast's position or orientation
sequence length differs from the expected horizon length, the stored
path, time-index and yaw fields are all left exactly as they were (the
acceptance function is total, so the tick completes with the prior
path). -/
theorem c7_forecast_retention (md : ModelForecast) (s : PathState)
    (h : md.position_x.length ≠ TRAJECTORY_SIZE ∨
      md.orientation_x.length ≠ TRAJECTORY_SIZE) :
    acceptForecast md s = s := by
  have hneg : ¬(md.position_x.length = TRAJECTORY_SIZE ∧
      md.orientation_x.length = TRAJECTORY_SIZE) := by
    intro hc
    rcases h with h | h
    · exact h hc.1
    · exact h hc.2
  unfold acceptForecast
  rw [if_neg hneg]

/-- An empty (wrong-length) forecast. -/
def c7BadForecast : ModelForecast :=
  { position_x := [], position_y := [], position_z := [], position_t := [],
    orientation_x := [], orientation_z := [] }

/-- A nontrivial stored path state. -/
def c7PriorPath : PathState :=
  { path_xyz := [(1, 2, 3)], t_idxs := [0], plan_yaw := [1/2] }

/-- Witness for c7_forecast_retention at a concrete wrong-length
forecast. -/
theorem c7_witness :
    c7BadForecast.position_x.length ≠ TRAJECTORY_SIZE ∧
    acceptForecast c7BadForecast c7PriorPath = c7PriorPath :=
  ⟨by norm_num [c7BadForecast, TRAJECTORY_SIZE],
   c7_forecast_retention c7BadForecast c7PriorPath
     (Or.inl (by norm_num [c7BadForecast, TRAJECTORY_SIZE]))⟩

/-- Claim C10: the decoded left and right blinker flags come from distinct
values of the same turn-signal field, so they are never both true, and the
planner's exactly-one-blinker test (leftBlinker != rightBlinker) coincides
with at-least-one-blinker (leftBlinker || rightBlinker). -/
theorem c10_blinker_exclusive (v : ℤ) :
    (decodeLeftBlinker v && decodeRightBlinker v) = false ∧
    ((decodeLeftBlinker v != decodeRightBlinker v) =
      (decodeLeftBlinker v || decodeRightBlinker v)) := by
  unfold decodeLeftBlinker decodeRightBlinker
  by_cases h1 : v = 1
  · subst h1
    norm_num
  · by_cases h2 : v = 2
    · subst h2
      norm_num
    · simp [h1, h2]

/-- The first 32 ticks of a run that drives the machine off to
preLaneChange to laneChangeStarting to laneChangeFinishing: one active
no-blinker tick, 12 left-blinker ticks, 19 no-blinker ticks. -/
def c8TracePrefix : List TickInput :=
  [tickPlain, tickLeft, tickLeft, tickLeft, tickLeft, tickLeft,
   tickLeft, tickLeft, tickLeft, tickLeft, tickLeft, tickLeft,
   tickLeft, tickPlain, tickPlain, tickPlain, tickPlain, tickPlain,
   tickPlain, tickPlain, tickPlain, tickPlain, tickPlain, tickPlain,
   tickPlain, tickPlain, tickPlain, tickPlain, tickPlain, tickPlain,
   tickPlain, tickPlain]

/-- The state after c8TracePrefix: laneChangeFinishing with direction
left and blend factor 19/20. -/
def c8PrevState : LCState :=
  { lane_change_state := LaneChangeState.laneChangeFinishing
    lane_change_direction := LaneChangeDirection.left
    lane_change_timer := 3/2
    pre_lane_change_timer := Option.some 0
    lane_change_ll_prob := 19/20
    prev_one_blinker := false }

/-- The state one further no-blinker tick later: back to off, with the
direction still left. -/
def c8FinalState : LCState :=
  { lane_change_state := LaneChangeState.off
    lane_change_direction := LaneChangeDirection.left
    lane_change_timer := 0
    pre_lane_change_timer := Option.some 0
    lane_change_ll_prob := 1
    prev_one_blinker := false }

/-- Claim C8, counterexample: in a concrete reachable run the state
returns to off from laneChangeFinishing with the direction still left —
the direction is not reset to none at that transition. -/
theorem c8_counterexample :
    runTicks alcConfigNudgeLess c8TracePrefix initLCState = Except.ok c8PrevState ∧
    c8PrevState.lane_change_state = LaneChangeState.laneChangeFinishing ∧
    laneChangeTick alcConfigNudgeLess tickPlain c8PrevState = Except.ok c8FinalState ∧
    c8FinalState.lane_change_state = LaneChangeState.off ∧
    c8FinalState.lane_change_direction = LaneChangeDirection.left := by
  have h1 : laneChangeTick alcConfigNudgeLess tickPlain initLCState =
      Except.ok (⟨LaneChangeState.off, LaneChangeDirection.none, 0, Option.some (0), 1, false⟩ : LCState) := by
    norm_num [laneChangeTick, laneChangeCore, blinkerDirTimer, stateTransitions,
      timerAndPrev, torqueApplied, blindspotDetected, initLCState, alcConfigNudgeLess,
      tickPlain, tickLeft, mkTick, DT_MDL] <;> first
    | decide
    | (simp <;> first
        | decide
        | norm_num)
  have h2 : laneChangeTick alcConfigNudgeLess tickLeft (⟨LaneChangeState.off, LaneChangeDirection.none, 0, Option.some (0), 1, false⟩ : LCState) =
      Except.ok (⟨LaneChangeState.preLaneChange, LaneChangeDirection.left, 0, Option.some (1/20), 1, true⟩ : LCState) := by
    norm_num [laneChangeTick, laneChangeCore, blinkerDirTimer, stateTransitions,
      timerAndPrev, torqueApplied, blindspotDetected, initLCState, alcConfigNudgeLess,
      tickPlain, tickLeft, mkTick, DT_MDL] <;> first
    | decide
    | (simp <;> first
        | decide
        | norm_num)
  have h3 : laneChangeTick alcConfigNudgeLess tickLeft (⟨LaneChangeState.preLaneChange, LaneChangeDirection.left, 0, Option.some (1/20), 1, true⟩ : LCState) =
      Except.ok (⟨LaneChangeState.laneChangeStarting, LaneChangeDirection.left, 1/20, Option.some (1/10), 1, true⟩ : LCState) := by
    norm_num [laneChangeTick, laneChangeCore, blinkerDirTimer, stateTransitions,
      timerAndPrev, torqueApplied, blindspotDetected, initLCState, alcConfigNudgeLess,
      tickPlain, tickLeft, mkTick, DT_MDL] <;> first
    | decide
    | (simp <;> first
        | decide
        | norm_num)
  have h4 : laneChangeTick alcConfigNudgeLess tickLeft (⟨LaneChangeState.laneChangeStarting, LaneChangeDirection.left, 1/20, Option.some (1/10), 1, true⟩ : LCState) =
      Except.ok (⟨LaneChangeState.laneChangeStarting, LaneChangeDirection.left, 1/10, Option.some (3/20), 9/10, true⟩ : LCState) := by
    norm_num [laneChangeTick, laneChangeCore, blinkerDirTimer, stateTransitions,
      timerAndPrev, torqueApplied, blindspotDetected, initLCState, alcConfigNudgeLess,
      tickPlain, tickLeft, mkTick, DT_MDL] <;> first
    | decide
    | (simp <;> first
        | decide
        | norm_num)
  have h5 : laneChangeTick alcConfigNudgeLess tickLeft (⟨LaneChangeState.laneChangeStarting, LaneChangeDirection.left, 1/10, Option.some (3/20), 9/10, true⟩ : LCState) =
      Except.ok (⟨LaneChangeState.laneChangeStarting, LaneChangeDirection.left, 3/20, Option.some (1/5), 4/5, true⟩ : LCState) := by
    norm_num [laneChangeTick, laneChangeCore, blinkerDirTimer, stateTransitions,
      timerAndPrev, torqueApplied, blindspotDetected, initLCState, alcConfigNudgeLess,
      tickPlain, tickLeft, mkTick, DT_MDL] <;> first
    | decide
    | (simp <;> first
        | decide
        | norm_num)
  have h6 : laneChangeTick alcConfigNudgeLess tickLeft (⟨LaneChangeState.laneChangeStarting, LaneChangeDirection.left, 3/20, Option.some (1/5), 4/5, true⟩ : LCState) =
      Except.ok (⟨LaneChangeState.laneChangeStarting, LaneChangeDirection.left, 1/5, Option.some (1/4), 7/10, true⟩ : LCState) := by
    norm_num [laneChangeTick, laneChangeCore, blinkerDirTimer, stateTransitions,
      timerAndPrev, torqueApplied, blindspotDetected, initLCState, alcConfigNudgeLess,
      tickPlain, tickLeft, mkTick, DT_MDL] <;> first
    | decide
    | (simp <;> first
        | decide
        | norm_num)
  have h7 : laneChangeTick alcConfigNudgeLess tickLeft (⟨LaneChangeState.laneChangeStarting, LaneChangeDirection.left, 1/5, Option.some (1/4), 7/10, true⟩ : LCState) =
      Except.ok (⟨LaneChangeState.laneChangeStarting, LaneChangeDirection.left, 1/4, Option.some (3/10), 3/5, true⟩ : LCState) := by
    norm_num [laneChangeTick, laneChangeCore, blinkerDirTimer, stateTransitions,
      timerAndPrev, torqueApplied, blindspotDetected, initLCState, alcConfigNudgeLess,
      tickPlain, tickLeft, mkTick, DT_MDL] <;> first
    | decide
    | (simp <;> first
        | decide
        | norm_num)
  have h8 : laneChangeTick alcConfigNudgeLess tickLeft (⟨LaneChangeState.laneChangeStarting, LaneChangeDirection.left, 1/4, Option.some (3/10), 3/5, true⟩ : LCState) =
      Except.ok (⟨LaneChangeState.laneChangeStarting, LaneChangeDirection.left, 3/10, Option.some (7/20), 1/2, true⟩ : LCState) := by
    norm_num [laneChangeTick, laneChangeCore, blinkerDirTimer, stateTransitions,
      timerAndPrev, torqueApplied, blindspotDetected, initLCState, alcConfigNudgeLess,
      tickPlain, tickLeft, mkTick, DT_MDL] <;> first
    | decide
    | (simp <;> first
        | decide
        | norm_num)
  have h9 : laneChangeTick alcConfigNudgeLess tickLeft (⟨LaneChangeState.laneChangeStarting, LaneChangeDirection.left, 3/10, Option.some (7/20), 1/2, true⟩ : LCState) =
      Except.ok (⟨LaneChangeState.laneChangeStarting, LaneChangeDirection.left, 7/20, Option.some (2/5), 2/5, true⟩ : LCState) := by
    norm_num [laneChangeTick, laneChangeCore, blinkerDirTimer, stateTransitions,
      timerAndPrev, torqueApplied, blindspotDetected, initLCState, alcConfigNudgeLess,
      tickPlain, tickLeft, mkTick, DT_MDL] <;> first
    | decide
    | (simp <;> first
        | decide
        | norm_num)
  have h10 : laneChangeTick alcConfigNudgeLess tickLeft (⟨LaneChangeState.laneChangeStarting, LaneChangeDirection.left, 7/20, Option.some (2/5), 2/5, true⟩ : LCState) =
      Except.ok (⟨LaneChangeState.laneChangeStarting, LaneChangeDirection.left, 2/5, Option.some (9/20), 3/10, true⟩ : LCState) := by
    norm_num [laneChangeTick, laneChangeCore, blinkerDirTimer, stateTransitions,
      timerAndPrev, torqueApplied, blindspotDetected, initLCState, alcConfigNudgeLess,
      tickPlain, tickLeft, mkTick, DT_MDL] <;> first
    | decide
    | (simp <;> first
        | decide
        | norm_num)
  have h11 : laneChangeTick alcConfigNudgeLess tickLeft (⟨LaneChangeState.laneChangeStarting, LaneChangeDirection.left, 2/5, Option.some (9/20), 3/10, true⟩ : LCState) =
      Except.ok (⟨LaneChangeState.laneChangeStarting, LaneChangeDirection.left, 9/20, Option.some (1/2), 1/5, true⟩ : LCState) := by
    norm_num [laneChangeTick, laneChangeCore, blinkerDirTimer, stateTransitions,
      timerAndPrev, torqueApplied, blindspotDetected, initLCState, alcConfigNudgeLess,
      tickPlain, tickLeft, mkTick, DT_MDL] <;> first
    | decide
    | (simp <;> first
        | decide
        | norm_num)
  have h12 : laneChangeTick alcConfigNudgeLess tickLeft (⟨LaneChangeState.laneChangeStarting, LaneChangeDirection.left, 9/20, Option.some (1/2), 1/5, true⟩ : LCState) =
      Except.ok (⟨LaneChangeState.laneChangeStarting, LaneChangeDirection.left, 1/2, Option.some (11/20), 1/10, true⟩ : LCState) := by
    norm_num [laneChangeTick, laneChangeCore, blinkerDirTimer, stateTransitions,
      timerAndPrev, torqueApplied, blindspotDetected, initLCState, alcConfigNudgeLess,
      tickPlain, tickLeft, mkTick, DT_MDL] <;> first
    | decide
    | (simp <;> first
        | decide
        | norm_num)
  have h13 : laneChangeTick alcConfigNudgeLess tickLeft (⟨LaneChangeState.laneChangeStarting, LaneChangeDirection.left, 1/2, Option.some (11/20), 1/10, true⟩ : LCState) =
      Except.ok (⟨LaneChangeState.laneChangeFinishing, LaneChangeDirection.left, 11/20, Option.some (3/5), 0, true⟩ : LCState) := by
    norm_num [laneChangeTick, laneChangeCore, blinkerDirTimer, stateTransitions,
      timerAndPrev, torqueApplied, blindspotDetected, initLCState, alcConfigNudgeLess,
      tickPlain, tickLeft, mkTick, DT_MDL] <;> first
    | decide
    | (simp <;> first
        | decide
        | norm_num)
  have h14 : laneChangeTick alcConfigNudgeLess tickPlain (⟨LaneChangeState.laneChangeFinishing, LaneChangeDirection.left, 11/20, Option.some (3/5), 0, true⟩ : LCState) =
      Except.ok (⟨LaneChangeState.laneChangeFinishing, LaneChangeDirection.left, 3/5, Option.some (0), 1/20, false⟩ : LCState) := by
    norm_num [laneChangeTick, laneChangeCore, blinkerDirTimer, stateTransitions,
      timerAndPrev, torqueApplied, blindspotDetected, initLCState, alcConfigNudgeLess,
      tickPlain, tickLeft, mkTick, DT_MDL] <;> first
    | decide
    | (simp <;> first
        | decide
        | norm_num)
  have h15 : laneChangeTick alcConfigNudgeLess tickPlain (⟨LaneChangeState.laneChangeFinishing, LaneChangeDirection.left, 3/5, Option.some (0), 1/20, false⟩ : LCState) =
      Except.ok (⟨LaneChangeState.laneChangeFinishing, LaneChangeDirection.left, 13/20, Option.some (0), 1/10, false⟩ : LCState) := by
    norm_num [laneChangeTick, laneChangeCore, blinkerDirTimer, stateTransitions,
      timerAndPrev, torqueApplied, blindspotDetected, initLCState, alcConfigNudgeLess,
      tickPlain, tickLeft, mkTick, DT_MDL] <;> first
    | decide
    | (simp <;> first
        | decide
        | norm_num)
  have h16 : laneChangeTick alcConfigNudgeLess tickPlain (⟨LaneChangeState.laneChangeFinishing, LaneChangeDirection.left, 13/20, Option.some (0), 1/10, false⟩ : LCState) =
      Except.ok (⟨LaneChangeState.laneChangeFinishing, LaneChangeDirection.left, 7/10, Option.some (0), 3/20, false⟩ : LCState) := by
    norm_num [laneChangeTick, laneChangeCore, blinkerDirTimer, stateTransitions,
      timerAndPrev, torqueApplied, blindspotDetected, initLCState, alcConfigNudgeLess,
      tickPlain, tickLeft, mkTick, DT_MDL] <;> first
    | decide
    | (simp <;> first
        | decide
        | norm_num)
  have h17 : laneChangeTick alcConfigNudgeLess tickPlain (⟨LaneChangeState.laneChangeFinishing, LaneChangeDirection.left, 7/10, Option.some (0), 3/20, false⟩ : LCState) =
      Except.ok (⟨LaneChangeState.laneChangeFinishing, LaneChangeDirection.left, 3/4, Option.some (0), 1/5, false⟩ : LCState) := by
    norm_num [laneChangeTick, laneChangeCore, blinkerDirTimer, stateTransitions,
      timerAndPrev, torqueApplied, blindspotDetected, initLCState, alcConfigNudgeLess,
      tickPlain, tickLeft, mkTick, DT_MDL] <;> first
    | decide
    | (simp <;> first
        | decide
        | norm_num)
  have h18 : laneChangeTick alcConfigNudgeLess tickPlain (⟨LaneChangeState.laneChangeFinishing, LaneChangeDirection.left, 3/4, Option.some (0), 1/5, false⟩ : LCState) =
      Except.ok (⟨LaneChangeState.laneChangeFinishing, LaneChangeDirection.left, 4/5, Option.some (0), 1/4, false⟩ : LCState) := by
    norm_num [laneChangeTick, laneChangeCore, blinkerDirTimer, stateTransitions,
      timerAndPrev, torqueApplied, blindspotDetected, initLCState, alcConfigNudgeLess,
      tickPlain, tickLeft, mkTick, DT_MDL] <;> first
    | decide
    | (simp <;> first
        | decide
        | norm_num)
  have h19 : laneChangeTick alcConfigNudgeLess tickPlain (⟨LaneChangeState.laneChangeFinishing, LaneChangeDirection.left, 4/5, Option.some (0), 1/4, false⟩ : LCState) =
      Except.ok (⟨LaneChangeState.laneChangeFinishing, LaneChangeDirection.left, 17/20, Option.some (0), 3/10, false⟩ : LCState) := by
    norm_num [laneChangeTick, laneChangeCore, blinkerDirTimer, stateTransitions,
      timerAndPrev, torqueApplied, blindspotDetected, initLCState, alcConfigNudgeLess,
      tickPlain, tickLeft, mkTick, DT_MDL] <;> first
    | decide
    | (simp <;> first
        | decide
        | norm_num)
  have h20 : laneChangeTick alcConfigNudgeLess tickPlain (⟨LaneChangeState.laneChangeFinishing, LaneChangeDirection.left, 17/20, Option.some (0), 3/10, false⟩ : LCState) =
      Except.ok (⟨LaneChangeState.laneChangeFinishing, LaneChangeDirection.left, 9/10, Option.some (0), 7/20, false⟩ : LCState) := by
    norm_num [laneChangeTick, laneChangeCore, blinkerDirTimer, stateTransitions,
      timerAndPrev, torqueApplied, blindspotDetected, initLCState, alcConfigNudgeLess,
      tickPlain, tickLeft, mkTick, DT_MDL] <;> first
    | decide
    | (simp <;> first
        | decide
        | norm_num)
  have h21 : laneChangeTick alcConfigNudgeLess tickPlain (⟨LaneChangeState.laneChangeFinishing, LaneChangeDirection.left, 9/10, Option.some (0), 7/20, false⟩ : LCState) =
      Except.ok (⟨LaneChangeState.laneChangeFinishing, LaneChangeDirection.left, 19/20, Option.some (0), 2/5, false⟩ : LCState) := by
    norm_num [laneChangeTick, laneChangeCore, blinkerDirTimer, stateTransitions,
      timerAndPrev, torqueApplied, blindspotDetected, initLCState, alcConfigNudgeLess,
      tickPlain, tickLeft, mkTick, DT_MDL] <;> first
    | decide
    | (simp <;> first
        | decide
        | norm_num)
  have h22 : laneChangeTick alcConfigNudgeLess tickPlain (⟨LaneChangeState.laneChangeFinishing, LaneChangeDirection.left, 19/20, Option.some (0), 2/5, false⟩ : LCState) =
      Except.ok (⟨LaneChangeState.laneChangeFinishing, LaneChangeDirection.left, 1, Option.some (0), 9/20, false⟩ : LCState) := by
    norm_num [laneChangeTick, laneChangeCore, blinkerDirTimer, stateTransitions,
      timerAndPrev, torqueApplied, blindspotDetected, initLCState, alcConfigNudgeLess,
      tickPlain, tickLeft, mkTick, DT_MDL] <;> first
    | decide
    | (simp <;> first
        | decide
        | norm_num)
  have h23 : laneChangeTick alcConfigNudgeLess tickPlain (⟨LaneChangeState.laneChangeFinishing, LaneChangeDirection.left, 1, Option.some (0), 9/20, false⟩ : LCState) =
      Except.ok (⟨LaneChangeState.laneChangeFinishing, LaneChangeDirection.left, 21/20, Option.some (0), 1/2, false⟩ : LCState) := by
    norm_num [laneChangeTick, laneChangeCore, blinkerDirTimer, stateTransitions,
      timerAndPrev, torqueApplied, blindspotDetected, initLCState, alcConfigNudgeLess,
      tickPlain, tickLeft, mkTick, DT_MDL] <;> first
    | decide
    | (simp <;> first
        | decide
        | norm_num)
  have h24 : laneChangeTick alcConfigNudgeLess tickPlain (⟨LaneChangeState.laneChangeFinishing, LaneChangeDirection.left, 21/20, Option.some (0), 1/2, false⟩ : LCState) =
      Except.ok (⟨LaneChangeState.laneChangeFinishing, LaneChangeDirection.left, 11/10, Option.some (0), 11/20, false⟩ : LCState) := by
    norm_num [laneChangeTick, laneChangeCore, blinkerDirTimer, stateTransitions,
      timerAndPrev, torqueApplied, blindspotDetected, initLCState, alcConfigNudgeLess,
      tickPlain, tickLeft, mkTick, DT_MDL] <;> first
    | decide
    | (simp <;> first
        | decide
        | norm_num)
  have h25 : laneChangeTick alcConfigNudgeLess tickPlain (⟨LaneChangeState.laneChangeFinishing, LaneChangeDirection.left, 11/10, Option.some (0), 11/20, false⟩ : LCState) =
      Except.ok (⟨LaneChangeState.laneChangeFinishing, LaneChangeDirection.left, 23/20, Option.some (0), 3/5, false⟩ : LCState) := by
    norm_num [laneChangeTick, laneChangeCore, blinkerDirTimer, stateTransitions,
      timerAndPrev, torqueApplied, blindspotDetected, initLCState, alcConfigNudgeLess,
      tickPlain, tickLeft, mkTick, DT_MDL] <;> first
    | decide
    | (simp <;> first
        | decide
        | norm_num)
  have h26 : laneChangeTick alcConfigNudgeLess tickPlain (⟨LaneChangeState.laneChangeFinishing, LaneChangeDirection.left, 23/20, Option.some (0), 3/5, false⟩ : LCState) =
      Except.ok (⟨LaneChangeState.laneChangeFinishing, LaneChangeDirection.left, 6/5, Option.some (0), 13/20, false⟩ : LCState) := by
    norm_num [laneChangeTick, laneChangeCore, blinkerDirTimer, stateTransitions,
      timerAndPrev, torqueApplied, blindspotDetected, initLCState, alcConfigNudgeLess,
      tickPlain, tickLeft, mkTick, DT_MDL] <;> first
    | decide
    | (simp <;> first
        | decide
        | norm_num)
  have h27 : laneChangeTick alcConfigNudgeLess tickPlain (⟨LaneChangeState.laneChangeFinishing, LaneChangeDirection.left, 6/5, Option.some (0), 13/20, false⟩ : LCState) =
      Except.ok (⟨LaneChangeState.laneChangeFinishing, LaneChangeDirection.left, 5/4, Option.some (0), 7/10, false⟩ : LCState) := by
    norm_num [laneChangeTick, laneChangeCore, blinkerDirTimer, stateTransitions,
      timerAndPrev, torqueApplied, blindspotDetected, initLCState, alcConfigNudgeLess,
      tickPlain, tickLeft, mkTick, DT_MDL] <;> first
    | decide
    | (simp <;> first
        | decide
        | norm_num)
  have h28 : laneChangeTick alcConfigNudgeLess tickPlain (⟨LaneChangeState.laneChangeFinishing, LaneChangeDirection.left, 5/4, Option.some (0), 7/10, false⟩ : LCState) =
      Except.ok (⟨LaneChangeState.laneChangeFinishing, LaneChangeDirection.left, 13/10, Option.some (0), 3/4, false⟩ : LCState) := by
    norm_num [laneChangeTick, laneChangeCore, blinkerDirTimer, stateTransitions,
      timerAndPrev, torqueApplied, blindspotDetected, initLCState, alcConfigNudgeLess,
      tickPlain, tickLeft, mkTick, DT_MDL] <;> first
    | decide
    | (simp <;> first
        | decide
        | norm_num)
  have h29 : laneChangeTick alcConfigNudgeLess tickPlain (⟨LaneChangeState.laneChangeFinishing, LaneChangeDirection.left, 13/10, Option.some (0), 3/4, false⟩ : LCState) =
      Except.ok (⟨LaneChangeState.laneChangeFinishing, LaneChangeDirection.left, 27/20, Option.some (0), 4/5, false⟩ : LCState) := by
    norm_num [laneChangeTick, laneChangeCore, blinkerDirTimer, stateTransitions,
      timerAndPrev, torqueApplied, blindspotDetected, initLCState, alcConfigNudgeLess,
      tickPlain, tickLeft, mkTick, DT_MDL] <;> first
    | decide
    | (simp <;> first
        | decide
        | norm_num)
  have h30 : laneChangeTick alcConfigNudgeLess tickPlain (⟨LaneChangeState.laneChangeFinishing, LaneChangeDirection.left, 27/20, Option.some (0), 4/5, false⟩ : LCState) =
      Except.ok (⟨LaneChangeState.laneChangeFinishing, LaneChangeDirection.left, 7/5, Option.some (0), 17/20, false⟩ : LCState) := by
    norm_num [laneChangeTick, laneChangeCore, blinkerDirTimer, stateTransitions,
      timerAndPrev, torqueApplied, blindspotDetected, initLCState, alcConfigNudgeLess,
      tickPlain, tickLeft, mkTick, DT_MDL] <;> first
    | decide
    | (simp <;> first
        | decide
        | norm_num)
  have h31 : laneChangeTick alcConfigNudgeLess tickPlain (⟨LaneChangeState.laneChangeFinishing, LaneChangeDirection.left, 7/5, Option.some (0), 17/20, false⟩ : LCState) =
      Except.ok (⟨LaneChangeState.laneChangeFinishing, LaneChangeDirection.left, 29/20, Option.some (0), 9/10, false⟩ : LCState) := by
    norm_num [laneChangeTick, laneChangeCore, blinkerDirTimer, stateTransitions,
      timerAndPrev, torqueApplied, blindspotDetected, initLCState, alcConfigNudgeLess,
      tickPlain, tickLeft, mkTick, DT_MDL] <;> first
    | decide
    | (simp <;> first
        | decide
        | norm_num)
  have h32 : laneChangeTick alcConfigNudgeLess tickPlain (⟨LaneChangeState.laneChangeFinishing, LaneChangeDirection.left, 29/20, Option.some (0), 9/10, false⟩ : LCState) =
      Except.ok (⟨LaneChangeState.laneChangeFinishing, LaneChangeDirection.left, 3/2, Option.some (0), 19/20, false⟩ : LCState) := by
    norm_num [laneChangeTick, laneChangeCore, blinkerDirTimer, stateTransitions,
      timerAndPrev, torqueApplied, blindspotDetected, initLCState, alcConfigNudgeLess,
      tickPlain, tickLeft, mkTick, DT_MDL] <;> first
    | decide
    | (simp <;> first
        | decide
        | norm_num)
  have h33 : laneChangeTick alcConfigNudgeLess tickPlain (⟨LaneChangeState.laneChangeFinishing, LaneChangeDirection.left, 3/2, Option.some (0), 19/20, false⟩ : LCState) =
      Except.ok (⟨LaneChangeState.off, LaneChangeDirection.left, 0, Option.some (0), 1, false⟩ : LCState) := by
    norm_num [laneChangeTick, laneChangeCore, blinkerDirTimer, stateTransitions,
      timerAndPrev, torqueApplied, blindspotDetected, initLCState, alcConfigNudgeLess,
      tickPlain, tickLeft, mkTick, DT_MDL] <;> first
    | decide
    | (simp <;> first
        | decide
        | norm_num)
  have hchain : runTicks alcConfigNudgeLess c8TracePrefix initLCState =
      Except.ok c8PrevState := by
    simp only [c8TracePrefix]
    rw [runTicks_cons_ok h1, runTicks_cons_ok h2, runTicks_cons_ok h3, runTicks_cons_ok h4,
      runTicks_cons_ok h5, runTicks_cons_ok h6, runTicks_cons_ok h7, runTicks_cons_ok h8,
      runTicks_cons_ok h9, runTicks_cons_ok h10, runTicks_cons_ok h11, runTicks_cons_ok h12,
      runTicks_cons_ok h13, runTicks_cons_ok h14, runTicks_cons_ok h15, runTicks_cons_ok h16,
      runTicks_cons_ok h17, runTicks_cons_ok h18, runTicks_cons_ok h19, runTicks_cons_ok h20,
      runTicks_cons_ok h21, runTicks_cons_ok h22, runTicks_cons_ok h23, runTicks_cons_ok h24,
      runTicks_cons_ok h25, runTicks_cons_ok h26, runTicks_cons_ok h27, runTicks_cons_ok h28,
      runTicks_cons_ok h29, runTicks_cons_ok h30, runTicks_cons_ok h31, runTicks_cons_ok h32]
    rfl
  have hlast : laneChangeTick alcConfigNudgeLess tickPlain c8PrevState =
      Except.ok c8FinalState := h33
  exact ⟨hchain, rfl, hlast, rfl, rfl⟩
